import Mathlib

/-!
# Verification of the go-3D-cube rendering demo

Shallow embedding of `src/cube.go` (and its variant `src/unnamed/part_000`):
the per-frame time/angle update of the render loop, the mgl32 rotation-matrix
computation, the shader compile/link pipeline, the texture-loading pipeline and
the per-frame sequence of graphics calls issued by `main`.

Machine floating point (`float64`/`float32`) is modelled by exact field
arithmetic: times and angles live in an arbitrary `LinearOrderedField`
(instantiated at `ℚ` for executable checks and at `ℝ` where `π` and
`sin`/`cos` are involved).  The OpenGL driver is modelled as an oracle
(`GLSpec`) deciding which shader sources compile and link, plus a handle
state (`GLState`) tracking created/deleted objects.
-/

namespace CubeDemo

/-! ## Render-loop state (cube.go lines 113-132)

`angle := 0.0; previousTime := glfw.GetTime()` followed each frame by
`time := glfw.GetTime(); deltaTime := time - previousTime;
previousTime = time; ...; angle += deltaTime`. -/

structure LoopState (α : Type) where
  angle : α
  previousTime : α
  deriving DecidableEq, Repr

variable {α : Type} [LinearOrderedField α]

/-- One iteration of the time/angle update of the render loop
(cube.go lines 121-123 and 132), given the clock reading `now`. -/
def step (s : LoopState α) (now : α) : LoopState α :=
  { angle := s.angle + (now - s.previousTime), previousTime := now }

/-- Running the render loop's time/angle update over a list of successive
clock readings. -/
def run (s : LoopState α) (ts : List α) : LoopState α :=
  ts.foldl step s

lemma run_angle (ts : List α) : ∀ s : LoopState α,
    (run s ts).angle = s.angle + ((run s ts).previousTime - s.previousTime) := by
  induction ts with
  | nil => intro s; simp [run]
  | cons t ts ih =>
      intro s
      have h := ih (step s t)
      simp only [run, List.foldl_cons] at h ⊢
      rw [h]
      simp only [step]
      ring

lemma run_previousTime (ts : List α) : ∀ s : LoopState α,
    (run s ts).previousTime = ts.getLast?.getD s.previousTime := by
  induction ts with
  | nil => intro s; simp [run]
  | cons t ts ih =>
      intro s
      have h := ih (step s t)
      simp only [run, List.foldl_cons] at h ⊢
      rw [h]
      cases ts with
      | nil => simp [step]
      | cons u us =>
          obtain ⟨x, hx⟩ : ∃ x, (u :: us).getLast? = some x :=
            ⟨(u :: us).getLast (by simp), List.getLast?_eq_getLast _ (by simp)⟩
          rw [List.getLast?_cons_cons, hx]
          simp

lemma run_angle_mono (ts : List α) : ∀ s : LoopState α,
    List.Chain' (· ≤ ·) (s.previousTime :: ts) →
    List.Chain' (· ≤ ·) ((List.scanl step s ts).map LoopState.angle) := by
  induction ts with
  | nil => intro s _; simp
  | cons t ts ih =>
      intro s hch
      rw [List.chain'_cons] at hch
      have h2 := ih (step s t) (by simpa [step] using hch.2)
      rw [List.scanl_cons, List.singleton_append, List.map_cons]
      rw [List.chain'_cons']
      refine ⟨?_, h2⟩
      intro y hy
      have hhead : (List.scanl step (step s t) ts).head? = some (step s t) := by
        cases ts <;> simp [List.scanl]
      rw [Option.mem_def, List.head?_map, hhead, Option.map_some', Option.some.injEq] at hy
      subst hy
      simp only [step]
      linarith [hch.1]

/-- C1: The rotation angle maintained by the render loop is monotonically
non-decreasing in wall-clock time (given non-decreasing clock readings), and
over the whole sequence of frames the angle advances by exactly the elapsed
time: the final angle is the initial angle plus (final clock reading − initial
`previousTime`), so it depends only on the last reading, independent of how
many frames the interval is split into. -/
theorem c1_angle_time_invariant (s : LoopState α) (ts : List α) :
    (run s ts).angle = s.angle + ((run s ts).previousTime - s.previousTime) ∧
    (run s ts).previousTime = ts.getLast?.getD s.previousTime ∧
    (∀ ts' : List α, ts.getLast?.getD s.previousTime = ts'.getLast?.getD s.previousTime →
      (run s ts).angle = (run s ts').angle) ∧
    (List.Chain' (· ≤ ·) (s.previousTime :: ts) →
      List.Chain' (· ≤ ·) ((List.scanl step s ts).map LoopState.angle)) := by
  refine ⟨run_angle ts s, run_previousTime ts s, ?_, run_angle_mono ts s⟩
  intro ts' hlast
  rw [run_angle ts s, run_angle ts' s, run_previousTime ts s, run_previousTime ts' s, hlast]

/-- Witness for C1 at a concrete run: readings 1, 2, 4 starting from time 0
advance the angle by the elapsed time, and the per-frame angles are
non-decreasing. -/
theorem c1_witness :
    (run (⟨0, 0⟩ : LoopState ℚ) [1, 2, 4]).angle =
      (0 : ℚ) + ((run (⟨0, 0⟩ : LoopState ℚ) [1, 2, 4]).previousTime - 0) ∧
    List.Chain' (· ≤ ·)
      ((List.scanl step (⟨0, 0⟩ : LoopState ℚ) [1, 2, 4]).map LoopState.angle) := by
  have hch : List.Chain' (· ≤ ·) ((⟨0, 0⟩ : LoopState ℚ).previousTime :: [1, 2, 4]) :=
    List.Chain.cons (by decide)
      (List.Chain.cons (by decide) (List.Chain.cons (by decide) List.Chain.nil))
  exact ⟨(c1_angle_time_invariant (⟨0, 0⟩ : LoopState ℚ) [1, 2, 4]).1,
    (c1_angle_time_invariant (⟨0, 0⟩ : LoopState ℚ) [1, 2, 4]).2.2.2 hch⟩

/-! ## Model matrix (cube.go line 136)

`model := mgl32.HomogRotate3D(float32(angle), mgl32.Vec3{0.5, 1.0, 0.0})`.
`mgl32.HomogRotate3D` builds the homogeneous Rodrigues rotation matrix from
the axis components without normalizing the axis; the result is a flat
column-major array of 16 floats, modelled here as a list of 16 reals. -/

/-- The mgl32 `HomogRotate3D` matrix for `angle` about axis `(x, y, z)`
(unnormalized), as its flat 16-element column-major array. -/
noncomputable def homogRotate3D (angle x y z : ℝ) : List ℝ :=
  let s := Real.sin angle
  let c := Real.cos angle
  let k := 1 - c
  [x * x * k + c, x * y * k + z * s, x * z * k - y * s, 0,
   x * y * k - z * s, y * y * k + c, y * z * k + x * s, 0,
   x * z * k + y * s, y * z * k - x * s, z * z * k + c, 0,
   0, 0, 0, 1]

/-- The model matrix computed each frame from the current rotation angle
(cube.go line 136): rotation about the fixed axis `(0.5, 1.0, 0.0)`. -/
noncomputable def modelMatrix (angle : ℝ) : List ℝ :=
  homogRotate3D angle 0.5 1.0 0.0

/-- C2: starting the loop at `previousTime = 0` and advancing the clock to
`t = π` in a single frame makes the angle exactly `π`, and the model matrix
of that frame is the homogeneous rotation of `π` radians about the
unnormalized axis `(0.5, 1.0, 0.0)` — concretely the matrix below, whose
translation column is `(0, 0, 0, 1)` and whose homogeneous row is
`(0, 0, 0, 1)`: no translation or scale beyond that rotation. -/
theorem c2_pi_single_frame :
    (step (⟨0, 0⟩ : LoopState ℝ) Real.pi).angle = Real.pi ∧
    modelMatrix (step (⟨0, 0⟩ : LoopState ℝ) Real.pi).angle =
      homogRotate3D Real.pi 0.5 1.0 0.0 ∧
    homogRotate3D Real.pi 0.5 1.0 0.0 =
      [-0.5, 1, 0, 0, 1, 1, 0, 0, 0, 0, -1, 0, 0, 0, 0, 1] := by
  have hang : (step (⟨0, 0⟩ : LoopState ℝ) Real.pi).angle = Real.pi := by
    simp [step]
  refine ⟨hang, by rw [hang]; rfl, ?_⟩
  simp only [homogRotate3D, Real.sin_pi, Real.cos_pi]
  norm_num

/-! ## OpenGL driver model

The driver is an oracle (`GLSpec`) deciding which shader sources compile and
which source pairs link, together with the diagnostic logs it reports, and a
handle state (`GLState`) tracking the objects created and deleted by the
program.  Handles are successive positive naturals (`0` is the null handle,
as in OpenGL). -/

structure GLSpec where
  compileOk : String → Bool
  shaderLog : String → String
  linkOk : String → String → Bool
  linkLog : String → String → String

structure GLState where
  nextHandle : Nat
  liveShaders : List Nat
  livePrograms : List Nat
  liveTextures : List Nat
  deriving DecidableEq, Repr

/-- The GL state at context creation: no objects yet. -/
def glState0 : GLState := ⟨0, [], [], []⟩

def glCreateShader (st : GLState) : Nat × GLState :=
  (st.nextHandle + 1,
   { st with nextHandle := st.nextHandle + 1,
             liveShaders := (st.nextHandle + 1) :: st.liveShaders })

def glCreateProgram (st : GLState) : Nat × GLState :=
  (st.nextHandle + 1,
   { st with nextHandle := st.nextHandle + 1,
             livePrograms := (st.nextHandle + 1) :: st.livePrograms })

def glDeleteShader (st : GLState) (h : Nat) : GLState :=
  { st with liveShaders := st.liveShaders.filter (fun x => x != h) }

def glGenTexture (st : GLState) : Nat × GLState :=
  (st.nextHandle + 1,
   { st with nextHandle := st.nextHandle + 1,
             liveTextures := (st.nextHandle + 1) :: st.liveTextures })

def glGenVertexArray (st : GLState) : Nat × GLState :=
  (st.nextHandle + 1, { st with nextHandle := st.nextHandle + 1 })

def glGenBuffer (st : GLState) : Nat × GLState :=
  (st.nextHandle + 1, { st with nextHandle := st.nextHandle + 1 })

def glVERTEX_SHADER : Nat := 0x8B31
def glFRAGMENT_SHADER : Nat := 0x8B30
def glTRIANGLES : Nat := 0x0004

/-- `compileShader` (cube.go lines 219-241): create a shader object, hand the
source to the driver, and on a rejected compile (`COMPILE_STATUS = FALSE`)
return the zero handle and an error embedding the source and the driver's
info log; on success return the shader handle.  (As in the Go code, the
shader object is not deleted on failure.) -/
def compileShader (spec : GLSpec) (st : GLState) (source : String)
    (shaderType : Nat) : (Nat × Option String) × GLState :=
  let r := glCreateShader st
  let shader := r.1
  let st1 := r.2
  if spec.compileOk source then
    ((shader, none), st1)
  else
    ((0, some ("failed to compile " ++ source ++ ": " ++ spec.shaderLog source)), st1)

/-- Result of a Go function that may either return normally or abort the
whole process via `log.Fatal` / `panic` before returning. -/
inductive GoRet (β : Type) where
  | ret : β → GoRet β
  | fatal : String → GoRet β
  deriving DecidableEq, Repr

/-- `shaderProgFromFile` (cube.go lines 159-217): read both source files
(`log.Fatal`, aborting the process, if either read fails), compile both
stages (returning `(0, err)` on the first compile error), then create a
program, attach both shaders and link; on link failure return `(0, err)`
with the program info log, on success delete both shader objects and return
the program handle.  The Go variable names (`fragShader` holding the
compiled vertex stage and vice versa) are kept as in the source. -/
def shaderProgFromFile (fsText : String → Option String) (spec : GLSpec)
    (st : GLState) (vertShaderPath fragShaderPath : String) :
    GoRet (Nat × Option String) × GLState :=
  match fsText vertShaderPath with
  | none => (GoRet.fatal ("open " ++ vertShaderPath ++ ": no such file or directory"), st)
  | some vertSource =>
    match fsText fragShaderPath with
    | none => (GoRet.fatal ("open " ++ fragShaderPath ++ ": no such file or directory"), st)
    | some fragSource =>
      match compileShader spec st vertSource glVERTEX_SHADER with
      | ((_, some e), st1) => (GoRet.ret (0, some e), st1)
      | ((fragShader, none), st1) =>
        match compileShader spec st1 fragSource glFRAGMENT_SHADER with
        | ((_, some e), st2) => (GoRet.ret (0, some e), st2)
        | ((vertShader, none), st2) =>
          let pr := glCreateProgram st2
          let program := pr.1
          let st3 := pr.2
          if spec.linkOk vertSource fragSource then
            let st4 := glDeleteShader st3 vertShader
            let st5 := glDeleteShader st4 fragShader
            (GoRet.ret (program, none), st5)
          else
            (GoRet.ret (0, some ("failed to link program: " ++
              spec.linkLog vertSource fragSource)), st3)

/-- C3: whenever the driver rejects a source (compile status FALSE),
`compileShader` returns the zero handle and an error whose message embeds
both the offending source text and the driver's diagnostic log; and whenever
both sources of a pair compile and the pair links, `shaderProgFromFile`
returns a single linked program handle with no error. -/
theorem c3_compile_diagnostics_and_link_success (spec : GLSpec)
    (fsText : String → Option String) (st : GLState) :
    (∀ (source : String) (shaderType : Nat), spec.compileOk source = false →
      ∃ msg, (compileShader spec st source shaderType).1 = (0, some msg) ∧
        (∃ a b, msg = a ++ source ++ b) ∧
        (∃ a b, msg = a ++ spec.shaderLog source ++ b)) ∧
    (∀ vertPath fragPath vertSource fragSource,
      fsText vertPath = some vertSource → fsText fragPath = some fragSource →
      spec.compileOk vertSource = true → spec.compileOk fragSource = true →
      spec.linkOk vertSource fragSource = true →
      ∃ h, (shaderProgFromFile fsText spec st vertPath fragPath).1 =
        GoRet.ret (h, none)) := by
  constructor
  · intro source shaderType hbad
    refine ⟨"failed to compile " ++ source ++ ": " ++ spec.shaderLog source, ?_, ?_, ?_⟩
    · simp [compileShader, hbad]
    · exact ⟨"failed to compile ", ": " ++ spec.shaderLog source,
        by rw [String.append_assoc]⟩
    · exact ⟨"failed to compile " ++ source ++ ": ", "",
        by rw [String.append_empty]⟩
  · intro vertPath fragPath vertSource fragSource hv hf hcv hcf hlink
    refine ⟨(glCreateProgram (compileShader spec
      (compileShader spec st vertSource glVERTEX_SHADER).2 fragSource
      glFRAGMENT_SHADER).2).1, ?_⟩
    simp [shaderProgFromFile, hv, hf, compileShader, hcv, hcf, hlink]

def specAllOk : GLSpec := ⟨fun _ => true, fun _ => "", fun _ _ => true, fun _ _ => ""⟩

def specRejectBad : GLSpec :=
  ⟨fun s => s != "bad", fun _ => "SYNTAX ERROR", fun _ _ => true, fun _ _ => ""⟩

def fsAllFiles : String → Option String := fun _ => some "void main()"

/-- Witness for C3: the driver rejecting source `"bad"` yields a zero handle
and a message embedding `"bad"` and the log, and an accepted pair yields a
linked program handle. -/
theorem c3_witness :
    (∃ msg, (compileShader specRejectBad glState0 "bad" glVERTEX_SHADER).1 =
        (0, some msg) ∧
      (∃ a b, msg = a ++ "bad" ++ b) ∧
      (∃ a b, msg = a ++ specRejectBad.shaderLog "bad" ++ b)) ∧
    (∃ h, (shaderProgFromFile fsAllFiles specRejectBad glState0
      "shader.vert" "shader.frag").1 = GoRet.ret (h, none)) :=
  ⟨(c3_compile_diagnostics_and_link_success specRejectBad fsAllFiles glState0).1
      "bad" glVERTEX_SHADER (by decide),
   (c3_compile_diagnostics_and_link_success specRejectBad fsAllFiles glState0).2
      "shader.vert" "shader.frag" "void main()" "void main()"
      rfl rfl (by decide) (by decide) rfl⟩

/-- C4: `shaderProgFromFile` is atomic at its interface — whenever it
returns at all (rather than aborting the process), it returns either a
nonzero, fully linked program handle with no error, having deleted both
individual shader stage objects from the live-shader set after the
successful link, or the zero handle together with an error. -/
theorem c4_link_atomicity (fsText : String → Option String) (spec : GLSpec)
    (st : GLState) (vertShaderPath fragShaderPath : String) (h : Nat)
    (e : Option String)
    (hres : (shaderProgFromFile fsText spec st vertShaderPath fragShaderPath).1 =
      GoRet.ret (h, e)) :
    (e = none ∧ h ≠ 0 ∧
      st.nextHandle + 1 ∉
        (shaderProgFromFile fsText spec st vertShaderPath fragShaderPath).2.liveShaders ∧
      st.nextHandle + 2 ∉
        (shaderProgFromFile fsText spec st vertShaderPath fragShaderPath).2.liveShaders) ∨
    (h = 0 ∧ ∃ msg, e = some msg) := by
  revert hres
  unfold shaderProgFromFile
  cases hv : fsText vertShaderPath with
  | none => intro hres; cases hres
  | some vertSource =>
    cases hf : fsText fragShaderPath with
    | none => intro hres; cases hres
    | some fragSource =>
      simp only [compileShader, glCreateShader]
      cases hcv : spec.compileOk vertSource with
      | false =>
          simp only [Bool.false_eq_true, if_false]
          intro hres
          cases hres
          exact Or.inr ⟨rfl, _, rfl⟩
      | true =>
          simp only [if_true]
          cases hcf : spec.compileOk fragSource with
          | false =>
              simp only [Bool.false_eq_true, if_false]
              intro hres
              cases hres
              exact Or.inr ⟨rfl, _, rfl⟩
          | true =>
              simp only [if_true]
              cases hlink : spec.linkOk vertSource fragSource with
              | false =>
                  simp only [Bool.false_eq_true, if_false]
                  intro hres
                  cases hres
                  exact Or.inr ⟨rfl, _, rfl⟩
              | true =>
                  simp only [if_true]
                  intro hres
                  cases hres
                  refine Or.inl ⟨rfl, by simp [glCreateProgram], ?_, ?_⟩ <;>
                    simp [glDeleteShader, glCreateProgram, List.mem_filter]

/-- Witness for C4 at a concrete successful run: the returned handle is the
program object `3`, with both shader objects `1` and `2` deleted. -/
theorem c4_witness :
    ((none : Option String) = none ∧ (3 : Nat) ≠ 0 ∧
      glState0.nextHandle + 1 ∉
        (shaderProgFromFile fsAllFiles specAllOk glState0
          "shader.vert" "shader.frag").2.liveShaders ∧
      glState0.nextHandle + 2 ∉
        (shaderProgFromFile fsAllFiles specAllOk glState0
          "shader.vert" "shader.frag").2.liveShaders) ∨
    ((3 : Nat) = 0 ∧ ∃ msg, (none : Option String) = some msg) :=
  c4_link_atomicity fsAllFiles specAllOk glState0 "shader.vert" "shader.frag"
    3 none rfl

/-! ## Texture loading (cube.go lines 243-289)

The image file system is a map from paths to files; a present file either
fails to decode (`image.Decode` error) or decodes to an image with known
bounds.  `image.NewRGBA` is the Go standard library allocator: for bounds
`r` it returns a buffer with `Stride = 4 * r.Dx()`. -/

structure Rect where
  minX : Int
  minY : Int
  maxX : Int
  maxY : Int
  deriving DecidableEq, Repr

/-- `Rectangle.Dx` = `Rectangle.Size().X` in Go's image package. -/
def Rect.sizeX (r : Rect) : Int := r.maxX - r.minX

/-- The fields of Go's `image.RGBA` that `loadTexture` inspects (the pixel
payload is irrelevant to the claims and elided). -/
structure RGBA where
  rect : Rect
  stride : Int
  deriving DecidableEq, Repr

/-- Go standard library `image.NewRGBA(r)`: allocates a tightly packed
buffer with `Stride: 4 * r.Dx()` and `Rect: r`. -/
def NewRGBA (r : Rect) : RGBA := ⟨r, 4 * r.sizeX⟩

/-- A file offered to `image.Decode`: either the decode fails with an error
message, or it yields an image with the given bounds. -/
inductive GoImgFile where
  | bad (msg : String)
  | good (bounds : Rect)
  deriving DecidableEq, Repr

/-- The tail of `loadTexture` from the stride check on (cube.go lines
260-288): reject a buffer whose row stride differs from width × 4 with the
`"Unsupported stride"` error and an unchanged GL state, otherwise generate
a texture object, set its parameters and upload the pixels. -/
def createTextureFromRGBA (rgba : RGBA) (st : GLState) :
    (Nat × Option String) × GLState :=
  if rgba.stride ≠ rgba.rect.sizeX * 4 then
    ((0, some "Unsupported stride"), st)
  else
    let r := glGenTexture st
    ((r.1, none), r.2)

/-- `loadTexture` (cube.go lines 243-289): open the file (failing with a
`Texture %q not found` error if it cannot be opened), decode it (returning
the decoder's error on failure), allocate the RGBA buffer via
`image.NewRGBA(img.Bounds())`, then check the stride and upload. -/
def loadTexture (fsys : String → Option GoImgFile) (st : GLState)
    (file : String) : (Nat × Option String) × GLState :=
  match fsys file with
  | none =>
      ((0, some ("Texture \"" ++ file ++ "\" not found: open " ++ file ++
        ": no such file or directory")), st)
  | some (GoImgFile.bad msg) => ((0, some msg), st)
  | some (GoImgFile.good bounds) => createTextureFromRGBA (NewRGBA bounds) st

/-- Whether loading the image at `file` from `fsys` succeeds: the file is
present and decodes. -/
def texOk (fsys : String → Option GoImgFile) (file : String) : Bool :=
  match fsys file with
  | some (GoImgFile.good _) => true
  | _ => false

lemma loadTexture_ok (fsys : String → Option GoImgFile)
    (file : String) (h : texOk fsys file = true) :
    ∃ bounds, fsys file = some (GoImgFile.good bounds) ∧
      ∀ st : GLState, loadTexture fsys st file = ((st.nextHandle + 1, none),
        { st with nextHandle := st.nextHandle + 1,
                  liveTextures := (st.nextHandle + 1) :: st.liveTextures }) := by
  unfold texOk at h
  cases hf : fsys file with
  | none => rw [hf] at h; cases h
  | some f =>
      cases f with
      | bad m => rw [hf] at h; cases h
      | good bounds =>
          refine ⟨bounds, rfl, fun st => ?_⟩
          simp [loadTexture, hf, createTextureFromRGBA, NewRGBA, Rect.sizeX,
            glGenTexture, mul_comm]

lemma loadTexture_err (fsys : String → Option GoImgFile)
    (file : String) (h : texOk fsys file = false) :
    ∃ e, ∀ st : GLState, loadTexture fsys st file = ((0, some e), st) := by
  unfold texOk at h
  cases hf : fsys file with
  | none =>
      exact ⟨"Texture \"" ++ file ++ "\" not found: open " ++ file ++
        ": no such file or directory", fun st => by simp [loadTexture, hf]⟩
  | some f =>
      cases f with
      | bad m => exact ⟨m, fun st => by simp [loadTexture, hf]⟩
      | good bounds => rw [hf] at h; cases h

/-- C6: any decoded pixel buffer whose row stride differs from width × 4 is
rejected with the `"Unsupported stride"` error, the zero handle, and an
unchanged GL state (no texture object is created or uploaded), for all
widths and heights. -/
theorem c6_unsupported_stride (rgba : RGBA) (st : GLState)
    (h : rgba.stride ≠ rgba.rect.sizeX * 4) :
    createTextureFromRGBA rgba st = ((0, some "Unsupported stride"), st) := by
  simp [createTextureFromRGBA, h]

/-- Witness for C6: a 1×1 buffer with stride 5 is rejected. -/
theorem c6_witness :
    createTextureFromRGBA ⟨⟨0, 0, 1, 1⟩, 5⟩ glState0 =
      ((0, some "Unsupported stride"), glState0) :=
  c6_unsupported_stride ⟨⟨0, 0, 1, 1⟩, 5⟩ glState0 (by decide)

/-- C10: `image.NewRGBA` always returns a buffer whose stride is exactly
width × 4, so the `"Unsupported stride"` branch of `loadTexture` is
unreachable: loading a file that decodes always succeeds, and `loadTexture`
can fail only because the file is missing or because decoding fails. -/
theorem c10_stride_branch_unreachable :
    (∀ r : Rect, (NewRGBA r).stride = (NewRGBA r).rect.sizeX * 4) ∧
    (∀ (fsys : String → Option GoImgFile) (st : GLState) (file : String)
      (bounds : Rect), fsys file = some (GoImgFile.good bounds) →
      (loadTexture fsys st file).1.2 = none) ∧
    (∀ (fsys : String → Option GoImgFile) (st : GLState) (file : String)
      (e : String), (loadTexture fsys st file).1.2 = some e →
      fsys file = none ∨ ∃ m, fsys file = some (GoImgFile.bad m)) := by
  refine ⟨fun r => mul_comm 4 r.sizeX, ?_, ?_⟩
  · intro fsys st file bounds hf
    simp [loadTexture, hf, createTextureFromRGBA, NewRGBA, Rect.sizeX, mul_comm]
  · intro fsys st file e herr
    cases hf : fsys file with
    | none => exact Or.inl rfl
    | some f =>
        cases f with
        | bad m => exact Or.inr ⟨m, rfl⟩
        | good bounds =>
            rw [loadTexture] at herr
            rw [hf] at herr
            simp [createTextureFromRGBA, NewRGBA, Rect.sizeX, mul_comm] at herr

def fsImgAllGood : String → Option GoImgFile := fun _ => some (GoImgFile.good ⟨0, 0, 2, 2⟩)

/-- Witness for C10: a decodable 2×2 image loads with no error. -/
theorem c10_witness :
    (loadTexture fsImgAllGood glState0 "container.jpg").1.2 = none :=
  c10_stride_branch_unreachable.2.1 fsImgAllGood glState0 "container.jpg"
    ⟨0, 0, 2, 2⟩ rfl

/-! ## The graphics-call trace of `main` (cube.go lines 35-157)

The graphics calls `main` issues are recorded as an abstract trace; per-frame
state (time, angle) is threaded through `step`. -/

inductive GLCall where
  | enable
  | clearColor
  | clear
  | activeTexture (unit : Nat)
  | bindTexture (t : Nat)
  | useProgram (p : Nat)
  | genVertexArrays
  | bindVertexArray (v : Nat)
  | genBuffers
  | bindBuffer
  | bufferData (bytes : Nat)
  | vertexAttribPointer (index : Nat)
  | enableVertexAttribArray (index : Nat)
  | getUniformLocation (name : String)
  | uniform1i (loc : Nat) (val : Nat)
  | uniformMatrix4fv (name : String)
  | drawArrays (mode first count : Nat)
  | swapBuffers
  | pollEvents
  deriving DecidableEq, Repr

/-- Whether a graphics call is a draw call. -/
def isDraw : GLCall → Bool
  | GLCall.drawArrays _ _ _ => true
  | _ => false

/-- `true` when a call list contains no draw call. -/
def noDrawCalls (l : List GLCall) : Bool := l.all fun c => !(isDraw c)

/-- The static vertex table (cube.go lines 291-334): 36 vertices of
5 floats each (position x y z, texture coordinate u v). -/
def cubeVertices : List ℚ :=
  [-0.5, -0.5, -0.5, 0.0, 0.0,
   0.5, -0.5, -0.5, 1.0, 0.0,
   0.5, 0.5, -0.5, 1.0, 1.0,
   0.5, 0.5, -0.5, 1.0, 1.0,
   -0.5, 0.5, -0.5, 0.0, 1.0,
   -0.5, -0.5, -0.5, 0.0, 0.0,

   -0.5, -0.5, 0.5, 0.0, 0.0,
   0.5, -0.5, 0.5, 1.0, 0.0,
   0.5, 0.5, 0.5, 1.0, 1.0,
   0.5, 0.5, 0.5, 1.0, 1.0,
   -0.5, 0.5, 0.5, 0.0, 1.0,
   -0.5, -0.5, 0.5, 0.0, 0.0,

   -0.5, 0.5, 0.5, 1.0, 0.0,
   -0.5, 0.5, -0.5, 1.0, 1.0,
   -0.5, -0.5, -0.5, 0.0, 1.0,
   -0.5, -0.5, -0.5, 0.0, 1.0,
   -0.5, -0.5, 0.5, 0.0, 0.0,
   -0.5, 0.5, 0.5, 1.0, 0.0,

   0.5, 0.5, 0.5, 1.0, 0.0,
   0.5, 0.5, -0.5, 1.0, 1.0,
   0.5, -0.5, -0.5, 0.0, 1.0,
   0.5, -0.5, -0.5, 0.0, 1.0,
   0.5, -0.5, 0.5, 0.0, 0.0,
   0.5, 0.5, 0.5, 1.0, 0.0,

   -0.5, -0.5, -0.5, 0.0, 1.0,
   0.5, -0.5, -0.5, 1.0, 1.0,
   0.5, -0.5, 0.5, 1.0, 0.0,
   0.5, -0.5, 0.5, 1.0, 0.0,
   -0.5, -0.5, 0.5, 0.0, 0.0,
   -0.5, -0.5, -0.5, 0.0, 1.0,

   -0.5, 0.5, -0.5, 0.0, 1.0,
   0.5, 0.5, -0.5, 1.0, 1.0,
   0.5, 0.5, 0.5, 1.0, 0.0,
   0.5, 0.5, 0.5, 1.0, 0.0,
   -0.5, 0.5, 0.5, 0.0, 0.0,
   -0.5, 0.5, -0.5, 0.0, 1.0]

/-- The graphics calls of one iteration of the render loop (cube.go lines
117-155), in source order: clear, bind both textures, bind the program,
fetch and upload the three matrix uniforms, bind the vertex array, draw 36
triangles non-indexed (`gl.DrawArrays(gl.TRIANGLES, 0, 6*2*3)`), present. -/
def frameCalls (program vao texture1 texture2 : Nat) : List GLCall :=
  [GLCall.clearColor, GLCall.clear,
   GLCall.activeTexture 0, GLCall.bindTexture texture1,
   GLCall.activeTexture 1, GLCall.bindTexture texture2,
   GLCall.useProgram program,
   GLCall.getUniformLocation "model", GLCall.getUniformLocation "view",
   GLCall.uniformMatrix4fv "model", GLCall.uniformMatrix4fv "view",
   GLCall.getUniformLocation "projection", GLCall.uniformMatrix4fv "projection",
   GLCall.bindVertexArray vao,
   GLCall.drawArrays glTRIANGLES 0 (6 * 2 * 3),
   GLCall.swapBuffers, GLCall.pollEvents]

/-- The render loop (cube.go lines 116-156) run for `n` iterations, reading
the clock at successive indices `k, k+1, …`: returns the emitted graphics
calls and the final time/angle state. -/
def renderLoop (program vao texture1 texture2 : Nat) (clock : Nat → α) :
    Nat → Nat → LoopState α → List GLCall × LoopState α
  | _, 0, s => ([], s)
  | k, n + 1, s =>
      let r := renderLoop program vao texture1 texture2 clock (k + 1) n
        (step s (clock k))
      (frameCalls program vao texture1 texture2 ++ r.1, r.2)

/-- Process outcome of `main`: clean exit (status 0), `log.Fatal`-style
abort, or `panic` — the latter two exit with non-zero status. -/
inductive ProcExit where
  | normal
  | fatalExit (msg : String)
  | panicked (msg : String)
  deriving DecidableEq, Repr

/-- `true` for the `log.Fatal` family of aborts. -/
def isFatal : ProcExit → Bool
  | ProcExit.fatalExit _ => true
  | _ => false

/-- `true` for any non-zero process exit. -/
def exitsNonZero : ProcExit → Bool
  | ProcExit.normal => false
  | _ => true

/-- The environment `main` runs against: whether GLFW/window/GL
initialization succeed, the text files (shader sources), the image files,
the shader driver oracle, the wall clock, and the number of loop iterations
before the window reports close. -/
structure Env (α : Type) where
  glfwInitOk : Bool
  createWindowOk : Bool
  glInitOk : Bool
  fsText : String → Option String
  fsImg : String → Option GoImgFile
  spec : GLSpec
  clock : Nat → α
  frames : Nat

/-- `main` (cube.go lines 35-157): GLFW/window/GL initialization (failures
abort), `gl.Enable(DEPTH_TEST)`, shader program construction (a returned
error is `panic`ked, a missing source file already aborted inside
`shaderProgFromFile`), VAO/VBO and attribute setup, the two texture-unit
uniforms, the two texture loads (errors go to `log.Fatalln`), then the
render loop until the window closes. -/
def mainGo (env : Env α) : ProcExit × List GLCall :=
  if env.glfwInitOk = false then
    (ProcExit.fatalExit "Failed to initialize GLFW", [])
  else if env.createWindowOk = false then
    (ProcExit.panicked "CreateWindow failed", [])
  else if env.glInitOk = false then
    (ProcExit.panicked "gl.Init failed", [])
  else
    match shaderProgFromFile env.fsText env.spec glState0 "shader.vert" "shader.frag" with
    | (GoRet.fatal m, _) => (ProcExit.fatalExit m, [GLCall.enable])
    | (GoRet.ret (_, some e), _) => (ProcExit.panicked e, [GLCall.enable])
    | (GoRet.ret (program, none), st1) =>
      let rv := glGenVertexArray st1
      let vao := rv.1
      let rb := glGenBuffer rv.2
      let st3 := rb.2
      let setup : List GLCall :=
        [GLCall.enable, GLCall.useProgram program,
         GLCall.genVertexArrays, GLCall.bindVertexArray vao,
         GLCall.genBuffers, GLCall.bindBuffer,
         GLCall.bufferData (cubeVertices.length * 4),
         GLCall.vertexAttribPointer 0, GLCall.enableVertexAttribArray 0,
         GLCall.vertexAttribPointer 1, GLCall.enableVertexAttribArray 1,
         GLCall.getUniformLocation "texture1", GLCall.uniform1i 0 0,
         GLCall.getUniformLocation "texture2", GLCall.uniform1i 0 1]
      match loadTexture env.fsImg st3 "container.jpg" with
      | ((_, some e), _) => (ProcExit.fatalExit e, setup)
      | ((texture1, none), st4) =>
        match loadTexture env.fsImg st4 "awesomeface.png" with
        | ((_, some e), _) => (ProcExit.fatalExit e, setup)
        | ((texture2, none), _) =>
          let s0 : LoopState α := { angle := 0, previousTime := env.clock 0 }
          let lp := renderLoop program vao texture1 texture2 env.clock 1 env.frames s0
          (ProcExit.normal, setup ++ lp.1)

lemma renderLoop_trace (program vao texture1 texture2 : Nat) (clock : Nat → α) :
    ∀ (n k : Nat) (s : LoopState α),
      (renderLoop program vao texture1 texture2 clock k n s).1 =
        (List.replicate n (frameCalls program vao texture1 texture2)).flatten := by
  intro n
  induction n with
  | zero => intro k s; rfl
  | succ m ih =>
      intro k s
      simp only [renderLoop, List.replicate_succ, List.flatten_cons, ih]

set_option maxRecDepth 4000 in
/-- C7: the static vertex table holds exactly 36 vertices (180 floats at 5
floats per vertex, 36 a multiple of 3 for triangle-list topology), and each
of the `n` iterations of the render loop issues exactly one non-indexed
triangle-list draw call, of exactly `6*2*3 = 36` vertices. -/
theorem c7_vertex_count_and_draw (program vao texture1 texture2 : Nat)
    (clock : Nat → α) (k n : Nat) (s : LoopState α) :
    cubeVertices.length = 36 * 5 ∧ 36 % 3 = 0 ∧
    (frameCalls program vao texture1 texture2).countP isDraw = 1 ∧
    (∀ c ∈ frameCalls program vao texture1 texture2, isDraw c = true →
      c = GLCall.drawArrays glTRIANGLES 0 36) ∧
    (renderLoop program vao texture1 texture2 clock k n s).1.countP isDraw = n := by
  refine ⟨by simp [cubeVertices], by decide, ?_, ?_, ?_⟩
  · simp [frameCalls, List.countP_cons, isDraw]
  · intro c hc hdraw
    simp only [frameCalls, List.mem_cons] at hc
    rcases hc with rfl | rfl | rfl | rfl | rfl | rfl | rfl | rfl | rfl | rfl |
      rfl | rfl | rfl | rfl | rfl | rfl | rfl | hc <;>
      first | decide | cases hdraw | cases hc
  · rw [renderLoop_trace]
    induction n with
    | zero => rfl
    | succ m ih =>
        simp only [List.replicate_succ, List.flatten_cons, List.countP_append, ih]
        simp [frameCalls, List.countP_cons, isDraw]
        omega

/-- Witness for C7: two loop iterations issue exactly two draw calls, and
the vertex table has 36 × 5 entries. -/
theorem c7_witness :
    (renderLoop 1 2 3 4 (fun _ => (0 : ℚ)) 1 2 ⟨0, 0⟩).1.countP isDraw = 2 ∧
    cubeVertices.length = 36 * 5 :=
  ⟨(c7_vertex_count_and_draw 1 2 3 4 (fun _ => (0 : ℚ)) 1 2 ⟨0, 0⟩).2.2.2.2,
   (c7_vertex_count_and_draw 1 2 3 4 (fun _ => (0 : ℚ)) 1 2 ⟨0, 0⟩).1⟩

/-- C8: every iteration of the render loop emits the same call sequence,
which binds the shader program before any of the three matrix-uniform
uploads and performs all three uploads before the iteration's draw call:
the frame trace splits as `l1 ++ [UseProgram] ++ l2 ++ [DrawArrays] ++ l3`
with all `UniformMatrix4fv` calls inside `l2` and none in `l1` or `l3`. -/
theorem c8_frame_ordering (program vao texture1 texture2 : Nat)
    (clock : Nat → α) (k n : Nat) (s : LoopState α) :
    (renderLoop program vao texture1 texture2 clock k n s).1 =
      (List.replicate n (frameCalls program vao texture1 texture2)).flatten ∧
    ∃ l1 l2 l3, frameCalls program vao texture1 texture2 =
        l1 ++ GLCall.useProgram program ::
          (l2 ++ GLCall.drawArrays glTRIANGLES 0 (6 * 2 * 3) :: l3) ∧
      GLCall.uniformMatrix4fv "model" ∈ l2 ∧
      GLCall.uniformMatrix4fv "view" ∈ l2 ∧
      GLCall.uniformMatrix4fv "projection" ∈ l2 ∧
      (∀ name, GLCall.uniformMatrix4fv name ∉ l1) ∧
      (∀ name, GLCall.uniformMatrix4fv name ∉ l3) := by
  refine ⟨renderLoop_trace program vao texture1 texture2 clock n k s, ?_⟩
  refine ⟨[GLCall.clearColor, GLCall.clear,
    GLCall.activeTexture 0, GLCall.bindTexture texture1,
    GLCall.activeTexture 1, GLCall.bindTexture texture2],
    [GLCall.getUniformLocation "model", GLCall.getUniformLocation "view",
     GLCall.uniformMatrix4fv "model", GLCall.uniformMatrix4fv "view",
     GLCall.getUniformLocation "projection", GLCall.uniformMatrix4fv "projection",
     GLCall.bindVertexArray vao],
    [GLCall.swapBuffers, GLCall.pollEvents], rfl, by simp, by simp, by simp,
    ?_, ?_⟩ <;> intro name <;> simp

/-- Witness for C8: the loop trace of two concrete iterations is two copies
of the frame call list. -/
theorem c8_witness :
    (renderLoop 1 2 3 4 (fun _ => (0 : ℚ)) 1 2 ⟨0, 0⟩).1 =
      (List.replicate 2 (frameCalls 1 2 3 4)).flatten :=
  (c8_frame_ordering 1 2 3 4 (fun _ => (0 : ℚ)) 1 2 ⟨0, 0⟩).1

/-- Whether `shaderProgFromFile`, run from a fresh GL state on the two fixed
shader paths of `main`, returns a program with no error. -/
def spfSucceeds (fsText : String → Option String) (spec : GLSpec) : Bool :=
  match (shaderProgFromFile fsText spec glState0 "shader.vert" "shader.frag").1 with
  | GoRet.ret (_, none) => true
  | _ => false

/-- C5: for every nonexistent file path, `loadTexture` fails with a
`not found`-style error, the zero handle and an unchanged GL state (no
texture object created); and a `main` run whose texture file
`container.jpg` is missing aborts via `log.Fatalln` (non-zero exit)
without ever issuing a draw call. -/
theorem c5_missing_texture_aborts (env : Env α)
    (h1 : env.glfwInitOk = true) (h2 : env.createWindowOk = true)
    (h3 : env.glInitOk = true)
    (hsp : ∃ p st1, shaderProgFromFile env.fsText env.spec glState0
      "shader.vert" "shader.frag" = (GoRet.ret (p, none), st1))
    (hmiss : env.fsImg "container.jpg" = none) :
    (∀ (fsys : String → Option GoImgFile) (st : GLState) (file : String),
      fsys file = none →
      ∃ msg, loadTexture fsys st file = ((0, some msg), st) ∧
        ∃ a b, msg = a ++ "not found" ++ b) ∧
    isFatal (mainGo env).1 = true ∧
    noDrawCalls (mainGo env).2 = true := by
  obtain ⟨p, st1, hsp⟩ := hsp
  have hload : ∀ st : GLState, loadTexture env.fsImg st "container.jpg" =
      ((0, some ("Texture \"" ++ "container.jpg" ++ "\" not found: open " ++
        "container.jpg" ++ ": no such file or directory")), st) :=
    fun st => by simp [loadTexture, hmiss]
  refine ⟨?_, ?_, ?_⟩
  · intro fsys st file hf
    refine ⟨"Texture \"" ++ file ++ "\" not found: open " ++ file ++
      ": no such file or directory", by simp [loadTexture, hf], ?_⟩
    refine ⟨"Texture \"" ++ file ++ "\" ",
      ": open " ++ file ++ ": no such file or directory", ?_⟩
    have hsplit : ("\" not found: open " : String) =
        "\" " ++ "not found" ++ ": open " := rfl
    rw [hsplit]
    simp only [String.append_assoc]
  · simp [mainGo, h1, h2, h3, hsp, hload, isFatal]
  · simp only [mainGo, h1, h2, h3, hsp, hload]
    simp [noDrawCalls, isDraw]

/-- A run environment whose image files are all missing but whose shader
sources are present and accepted. -/
def envMissingTex : Env ℚ :=
  { glfwInitOk := true, createWindowOk := true, glInitOk := true,
    fsText := fsAllFiles, fsImg := fun _ => none, spec := specAllOk,
    clock := fun _ => 0, frames := 5 }

/-- Witness for C5: the concrete run with `container.jpg` missing aborts
fatally without a draw call. -/
theorem c5_witness :
    isFatal (mainGo envMissingTex).1 = true ∧
    noDrawCalls (mainGo envMissingTex).2 = true :=
  ⟨(c5_missing_texture_aborts envMissingTex rfl rfl rfl
      ⟨3, ⟨3, [], [3], []⟩, rfl⟩ rfl).2.1,
   (c5_missing_texture_aborts envMissingTex rfl rfl rfl
      ⟨3, ⟨3, [], [3], []⟩, rfl⟩ rfl).2.2⟩

def fsNoFiles : String → Option String := fun _ => none

/-- C9 counterexample: with the vertex-shader source file missing, the
error does not reach `main` as a returned error value — `shaderProgFromFile`
aborts the process itself (`log.Fatal`), yielding a `fatal` outcome rather
than a `ret` carrying the error. -/
theorem c9_counterexample :
    (shaderProgFromFile fsNoFiles specAllOk glState0
      "shader.vert" "shader.frag").1 =
      GoRet.fatal "open shader.vert: no such file or directory" := rfl

/-- C9 (amended): every error of the taxonomy — ContextInitError (GLFW
initialization, window creation or `gl.Init` failing), CompileError,
LinkError, and the FileNotFound/DecodeError/UnsupportedLayout failures of
either texture load — makes the process abort with non-zero status and the
error message logged; but a FileNotFound for either shader source file
aborts inside `shaderProgFromFile` via `log.Fatal`, never reaching `main`
as a returned error value. -/
theorem c9_error_propagation (env : Env α)
    (herr : env.glfwInitOk = false ∨ env.createWindowOk = false ∨
      env.glInitOk = false ∨
      spfSucceeds env.fsText env.spec = false ∨
      texOk env.fsImg "container.jpg" = false ∨
      texOk env.fsImg "awesomeface.png" = false) :
    exitsNonZero (mainGo env).1 = true ∧
    (∀ (fsText : String → Option String) (spec : GLSpec) (st : GLState)
      (vertShaderPath fragShaderPath : String),
      fsText vertShaderPath = none ∨ fsText fragShaderPath = none →
      ∃ m, (shaderProgFromFile fsText spec st vertShaderPath fragShaderPath).1 =
        GoRet.fatal m) := by
  constructor
  · cases h1 : env.glfwInitOk with
    | false => simp [mainGo, h1, exitsNonZero]
    | true =>
    cases h2 : env.createWindowOk with
    | false => simp [mainGo, h1, h2, exitsNonZero]
    | true =>
    cases h3 : env.glInitOk with
    | false => simp [mainGo, h1, h2, h3, exitsNonZero]
    | true =>
    rcases hres : shaderProgFromFile env.fsText env.spec glState0
      "shader.vert" "shader.frag" with ⟨r, stp⟩
    match r with
    | GoRet.fatal m => simp [mainGo, h1, h2, h3, hres, exitsNonZero]
    | GoRet.ret (ph, some e) => simp [mainGo, h1, h2, h3, hres, exitsNonZero]
    | GoRet.ret (ph, none) =>
      have hspt : spfSucceeds env.fsText env.spec = true := by
        simp [spfSucceeds, hres]
      cases hcont : texOk env.fsImg "container.jpg" with
      | false =>
          obtain ⟨e, hl⟩ := loadTexture_err env.fsImg "container.jpg" hcont
          simp [mainGo, h1, h2, h3, hres, hl, exitsNonZero]
      | true =>
          obtain ⟨bounds, _, hl1⟩ := loadTexture_ok env.fsImg "container.jpg" hcont
          rcases herr with h | h | h | h | h | h
          · rw [h1] at h; cases h
          · rw [h2] at h; cases h
          · rw [h3] at h; cases h
          · rw [hspt] at h; cases h
          · rw [hcont] at h; cases h
          · obtain ⟨e, hl2⟩ := loadTexture_err env.fsImg "awesomeface.png" h
            simp [mainGo, h1, h2, h3, hres, hl1, hl2, exitsNonZero]
  · intro fsText spec st vertShaderPath fragShaderPath hv
    cases hvert : fsText vertShaderPath with
    | none =>
        exact ⟨"open " ++ vertShaderPath ++ ": no such file or directory",
          by simp [shaderProgFromFile, hvert]⟩
    | some vertSource =>
        rcases hv with hv | hfrag
        · rw [hvert] at hv; cases hv
        · exact ⟨"open " ++ fragShaderPath ++ ": no such file or directory",
            by simp [shaderProgFromFile, hvert, hfrag]⟩

/-- Witness for C9 (amended) at the concrete run with both image files
missing: the process exits with non-zero status. -/
theorem c9_witness : exitsNonZero (mainGo envMissingTex).1 = true :=
  (c9_error_propagation envMissingTex
    (Or.inr (Or.inr (Or.inr (Or.inr (Or.inl rfl)))))).1

end CubeDemo
